import Mathlib

/-!
Shallow embedding of the authentication and notification layer of the
`ecommerce-website` repository (`src/js/auth.js`, `src/js/page-auth.js`).

The JavaScript code talks to a managed identity-and-document backend
(Firebase Auth + Firestore).  The embedding makes all effects explicit:

* The document store and the credential records of the identity provider are
  explicit state (`World`, `ViewDb`) threaded through the functions.
* Every network call that may throw is a parameter of type
  `Except JsError _`, so a thrown provider error is an `.error` value and
  each `try/catch` block in the source becomes a `match` on that value.
* Firestore `Timestamp` values are modelled as `Nat`; Firestore documents
  whose fields are a map from names to timestamps are association lists.
-/

/-- JavaScript `String.prototype.trim`: strip leading and trailing
whitespace.  Defined by structural recursion on the character list so
that concrete inputs evaluate inside the kernel. -/
def jsTrim (s : String) : String :=
  ⟨((s.data.dropWhile Char.isWhitespace).reverse.dropWhile
      Char.isWhitespace).reverse⟩

/-- JavaScript `String.prototype.toLowerCase`, character by character. -/
def jsToLower (s : String) : String :=
  ⟨s.data.map Char.toLower⟩

/-- A JavaScript `Error` as thrown by the Firebase SDK: an optional
provider error `code` (e.g. `"auth/too-many-requests"`) and a `message`. -/
structure JsError where
  code : Option String
  message : String
deriving Repr, DecidableEq

/-- A document of a tracked collection (`products`, `inbound`, `outbound`):
only its id and its `createdAt` timestamp are consumed by the counter. -/
structure Item where
  id : String
  createdAt : Nat
deriving Repr, DecidableEq

/-- Firestore query `query(collectionRef, where(dateField, GT, t))` (GT being the strict greater-than operator):
the documents whose `createdAt` field strictly exceeds `t`. -/
def queryWhereGt (items : List Item) (t : Nat) : List Item :=
  items.filter (fun it => t < it.createdAt)

/-- `getNewItemsCount` (page-auth.js, lines 179-196).
`lastViewedTimestamp` is `none` when the per-user view-state record is
missing or lacks the key (JS `undefined`, falsy).  `fetchItems` is the
result of the Firestore count query; `.error` models a thrown query error,
caught by the `try/catch` of the function itself, which returns 0. -/
def getNewItemsCount (lastViewedTimestamp : Option Nat)
    (fetchItems : Except JsError (List Item)) : Nat :=
  match lastViewedTimestamp with
  | none => 0
  | some t =>
    match fetchItems with
    | .error _ => 0
    | .ok items => (queryWhereGt items t).length

/-- A per-user view-state document: map from collection name to
last-viewed timestamp, as an association list. -/
abbrev PageViews := List (String × Nat)

/-- All key/value pairs of `m` except those with key `k`. -/
def removeKey {β : Type} (m : List (String × β)) (k : String) :
    List (String × β) :=
  m.filter (fun p => p.1 ≠ k)

/-- The JS object spread `{...m, [k]: v}` (and equally a Firestore
`setDoc` of that object with `merge: true` after reading `m`): every
binding of `m` is kept except for `k`, which is bound to `v`. -/
def setKey {β : Type} (m : List (String × β)) (k : String) (v : β) :
    List (String × β) :=
  removeKey m k ++ [(k, v)]

/-- The `userPageViews` Firestore collection: one `PageViews` document
per user id. -/
structure ViewDb where
  userPageViews : List (String × PageViews)
deriving Repr, DecidableEq

/-- `markPageAsViewed` (page-auth.js, lines 216-234): read the view-state document of the user (or `{}` when missing), then `setDoc` the spread of
that data with `pageName` bound to the current server time, with merge
semantics.  `now` is the value `serverTimestamp()` resolves to. -/
def markPageAsViewed (dbv : ViewDb) (userId pageName : String) (now : Nat) :
    ViewDb :=
  let currentData := (List.lookup userId dbv.userPageViews).getD []
  ⟨setKey dbv.userPageViews userId (setKey currentData pageName now)⟩

/-- `loadNotificationCounts` (page-auth.js, lines 152-174): fetch the view-state
document of the user, then compute the three collection counts.
`.error` on the view-state fetch models a thrown `getDoc`, caught by the
`try/catch` of the function, which only logs: no badge update happens, modelled
as `none`.  `some` carries the `(products, inbound, outbound)` counts the
badges are updated with. -/
def loadNotificationCounts (userViewsFetch : Except JsError (Option PageViews))
    (fetchProducts fetchInbound fetchOutbound : Except JsError (List Item)) :
    Option (Nat × Nat × Nat) :=
  match userViewsFetch with
  | .error _ => none
  | .ok viewsDoc =>
    let lastViews := viewsDoc.getD []
    some (getNewItemsCount (List.lookup "products" lastViews) fetchProducts,
          getNewItemsCount (List.lookup "inbound" lastViews) fetchInbound,
          getNewItemsCount (List.lookup "outbound" lastViews) fetchOutbound)

/-- A document of the Firestore `users` collection (auth.js header
comment, lines 20-31). -/
structure UserDoc where
  username : String
  email : String
  role : String
  displayName : String
  createdBy : String
  createdAt : Nat
deriving Repr, DecidableEq

/-- The backend state visible to auth.js: the `users` profile collection
(keyed by auth uid), the credential records of the identity provider
(uid ↦ credential email), and the ambient signed-in session
(`auth.currentUser`). -/
structure World where
  profiles : List (String × UserDoc)
  credentials : List (String × String)
  currentUser : Option String
deriving Repr, DecidableEq

/-- `getCurrentUserData` (auth.js, lines 104-121): `null` when nobody is
signed in; otherwise a single profile-store lookup whose thrown error or
missing document both yield `null`.  `fetchProfile` is the `getDoc` call
on `users/<uid>`. -/
def getCurrentUserData (currentUser : Option String)
    (fetchProfile : String → Except JsError (Option UserDoc)) :
    Option (String × UserDoc) :=
  match currentUser with
  | none => none
  | some uid =>
    match fetchProfile uid with
    | .error _ => none
    | .ok none => none
    | .ok (some d) => some (uid, d)

/-- Outcome of the session gate: either the promise resolves with the
profile record of the user, or the browser is redirected. -/
inductive GateResult
  | resolved (uid : String) (data : UserDoc)
  | redirect (url : String)
deriving Repr, DecidableEq

/-- `requireAuth` (auth.js, lines 290-306): one identity-provider round
trip (`currentUser`), then one profile lookup via `getCurrentUserData`;
a missing session or a missing/failed profile both redirect. -/
def requireAuth (currentUser : Option String)
    (fetchProfile : String → Except JsError (Option UserDoc))
    (redirectUrl : String) : GateResult :=
  match currentUser with
  | none => .redirect redirectUrl
  | some uid =>
    match getCurrentUserData (some uid) fetchProfile with
    | some (u, d) => .resolved u d
    | none => .redirect redirectUrl

/-- `initPageAuth` (page-auth.js, lines 40-67), restricted to the parts
with backend effects: gate the page through `requireAuth`, then load the
notification counts (whose result only feeds the DOM badges).  The gate
outcome is returned unchanged. -/
def initPageAuth (currentUser : Option String)
    (fetchProfile : String → Except JsError (Option UserDoc))
    (redirectUrl : String)
    (userViewsFetch : Except JsError (Option PageViews))
    (fetchProducts fetchInbound fetchOutbound : Except JsError (List Item)) :
    GateResult :=
  match requireAuth currentUser fetchProfile redirectUrl with
  | .redirect url => .redirect url
  | .resolved uid d =>
    let _badges := loadNotificationCounts userViewsFetch
      fetchProducts fetchInbound fetchOutbound
    .resolved uid d

/-- Result of an admin operation that returns `{success: true}` or
`{success: false, error}`. -/
inductive OpResult
  | success
  | failure (error : String)
deriving Repr, DecidableEq

/-- `deleteUserData` (auth.js, lines 247-266): verify the caller is an
admin, refuse self-deletion, then a `deleteDoc` of the `users` document at `uid`.
Every thrown check is caught and returned as a failure with the thrown
message; the world is only changed on the success path. -/
def deleteUserData (w : World)
    (fetchProfile : String → Except JsError (Option UserDoc))
    (uid : String) : World × OpResult :=
  match getCurrentUserData w.currentUser fetchProfile with
  | none => (w, .failure "Only admins can delete users")
  | some (adminUid, adminData) =>
    if adminData.role ≠ "admin" then
      (w, .failure "Only admins can delete users")
    else if uid = adminUid then
      (w, .failure "You cannot delete your own account")
    else
      ({ w with profiles := removeKey w.profiles uid }, .success)

/-- The user object returned by a successful `loginWithUsername` or
`createUser`. -/
structure SessionUser where
  uid : String
  email : String
  username : String
  displayName : String
  role : String
deriving Repr, DecidableEq

/-- `{success: true, user}` or `{success: false, error}` as returned by
`loginWithUsername`. -/
inductive LoginResult
  | success (user : SessionUser)
  | failure (error : String)
deriving Repr, DecidableEq

/-- The `try` block of `loginWithUsername` (auth.js, lines 44-71):
query the `users` collection by lowercased username (`lookupByUsername`
is that `getDocs`, returning the matching `(uid, doc)` pairs or a thrown
error), throw on an empty result, then authenticate with the found email
(`signIn` is `signInWithEmailAndPassword`, yielding the session uid). -/
def loginAttempt (username password : String)
    (lookupByUsername : String → Except JsError (List (String × UserDoc)))
    (signIn : String → String → Except JsError String) :
    Except JsError SessionUser := do
  let docs ← lookupByUsername (jsToLower username)
  match docs with
  | [] => .error { code := none, message := "Invalid username or password" }
  | (_, d) :: _ => do
    let uid ← signIn d.email password
    .ok { uid := uid, email := d.email, username := d.username,
          displayName := d.displayName, role := d.role }

/-- `loginWithUsername` (auth.js, lines 43-83): the `catch` block maps
every thrown error to a user-facing message, with a special message for
the rate-limit code of the provider. -/
def loginWithUsername (username password : String)
    (lookupByUsername : String → Except JsError (List (String × UserDoc)))
    (signIn : String → String → Except JsError String) : LoginResult :=
  match loginAttempt username password lookupByUsername signIn with
  | .ok u => .success u
  | .error e =>
    .failure (if e.code = some "auth/too-many-requests" then
        "Too many failed attempts. Please try again later."
      else
        "Invalid username or password")

/-- `isUsernameTaken` (auth.js, lines 126-131): query the `users`
collection by lowercased username and report whether the result is
non-empty. -/
def isUsernameTaken (username : String)
    (profiles : List (String × UserDoc)) : Bool :=
  !(profiles.filter (fun p => p.2.username == jsToLower username)).isEmpty

/-- The `try` block of `createUser` (auth.js, lines 142-196): validate
the fields, check the username, require a signed-in admin, create the
credential (`signUp` is `createUserWithEmailAndPassword`, which also
signs the session in as the new user), then `setDoc` the profile with
lowercased username and email.  `now` is `serverTimestamp()`. -/
def createUserAttempt (username email password role displayName : String)
    (w : World)
    (fetchProfile : String → Except JsError (Option UserDoc))
    (signUp : String → String → Except JsError String)
    (now : Nat) : Except JsError (World × SessionUser) :=
  if username = "" ∨ email = "" ∨ password = "" ∨ role = "" ∨
      displayName = "" then
    .error { code := none, message := "All fields are required" }
  else if isUsernameTaken username w.profiles then
    .error { code := none, message := "Username is already taken" }
  else
    match w.currentUser with
    | none =>
      .error { code := none,
               message := "You must be logged in as admin to create users" }
    | some adminUid =>
      match getCurrentUserData w.currentUser fetchProfile with
      | some (_, adminData) =>
        if adminData.role ≠ "admin" then
          .error { code := none, message := "Only admins can create new users" }
        else
          match signUp email password with
          | .error e => .error e
          | .ok newUid =>
            .ok ({ profiles := setKey w.profiles newUid
                     { username := jsToLower username,
                       email := jsToLower email, role := role,
                       displayName := displayName,
                       createdBy := adminUid, createdAt := now },
                   credentials := setKey w.credentials newUid email,
                   currentUser := some newUid },
                 { uid := newUid, email := jsToLower email,
                   username := jsToLower username,
                   displayName := displayName, role := role })
      | none =>
        .error { code := none, message := "Only admins can create new users" }

/-- The `catch` block of `createUser` (auth.js, lines 197-211): map the
known provider codes to friendly messages, otherwise keep the thrown
message. -/
def createUserErrorMessage (e : JsError) : String :=
  if e.code = some "auth/email-already-in-use" then "Email is already in use"
  else if e.code = some "auth/invalid-email" then "Invalid email address"
  else if e.code = some "auth/weak-password" then
    "Password should be at least 6 characters"
  else e.message

/-- `{success: true, user}` or `{success: false, error}` as returned by
`createUser`. -/
inductive CreateResult
  | success (user : SessionUser)
  | failure (error : String)
deriving Repr, DecidableEq

/-- `createUser` (auth.js, lines 141-212): the attempt with its `catch`.
A failure leaves the world unchanged. -/
def createUser (username email password role displayName : String)
    (w : World)
    (fetchProfile : String → Except JsError (Option UserDoc))
    (signUp : String → String → Except JsError String)
    (now : Nat) : World × CreateResult :=
  match createUserAttempt username email password role displayName w
      fetchProfile signUp now with
  | .ok (w2, u) => (w2, .success u)
  | .error e => (w, .failure (createUserErrorMessage e))

/-- `initializeFirstAdmin` (auth.js, lines 379-414): refuse when any user
document exists, create the credential, then `setDoc` the admin profile
with lowercased username and email, role `admin`, createdBy `system`.
The `catch` returns the thrown message unchanged. -/
def initFirstAdmin (username email password displayName : String)
    (w : World)
    (signUp : String → String → Except JsError String)
    (now : Nat) : World × OpResult :=
  if !w.profiles.isEmpty then
    (w, .failure "Users already exist. Cannot initialize first admin.")
  else
    match signUp email password with
    | .error e => (w, .failure e.message)
    | .ok newUid =>
      ({ profiles := setKey w.profiles newUid
           { username := jsToLower username, email := jsToLower email,
             role := "admin", displayName := displayName,
             createdBy := "system", createdAt := now },
         credentials := setKey w.credentials newUid email,
         currentUser := some newUid },
       .success)

/-- The modal form fields read by `window.saveProfile` (page-auth.js,
lines 405-409), before trimming. -/
structure ProfileForm where
  displayName : String
  email : String
  currentPassword : String
  newPassword : String
  confirmPassword : String
deriving Repr, DecidableEq

/-- A network call issued by the `try` block of `saveProfile`
(page-auth.js, lines 452-475), in order. -/
inductive NetOp
  | reauthenticate
  | updateEmail
  | updatePassword
  | updateDoc
deriving Repr, DecidableEq

/-- Outcome of the synchronous part of `saveProfile`: either an early
`return` after showing a validation error (before any network call), or
the ordered list of network calls the `try` block will issue. -/
inductive SaveOutcome
  | validationError (msg : String)
  | proceed (ops : List NetOp)
deriving Repr, DecidableEq

/-- Whether a `SaveOutcome` is an early validation `return`: such an
outcome issues no network call at all. -/
def SaveOutcome.isValidationError : SaveOutcome → Bool
  | .validationError _ => true
  | .proceed _ => false

/-- `window.saveProfile` (page-auth.js, lines 398-516), up to the point
where network calls begin: trim the name and email, run the validation
checks in source order, and otherwise record which network operations
the `try` block performs.  `storedEmail` is `currentUserData.email`. -/
def saveProfile (form : ProfileForm) (storedEmail : String) : SaveOutcome :=
  let displayName := jsTrim form.displayName
  let email := jsTrim form.email
  if displayName = "" then
    .validationError "Display name is required"
  else if email = "" then
    .validationError "Email is required"
  else
    let emailChanged : Bool := jsToLower email != jsToLower storedEmail
    let passwordChanged : Bool := decide (form.newPassword.length > 0)
    if (emailChanged || passwordChanged) && (form.currentPassword == "") then
      .validationError "Current password is required to change email or password"
    else if passwordChanged && (form.newPassword != form.confirmPassword) then
      .validationError "New passwords do not match"
    else if passwordChanged && decide (form.newPassword.length < 6) then
      .validationError "New password must be at least 6 characters"
    else
      .proceed
        ((if emailChanged || passwordChanged then [NetOp.reauthenticate] else [])
          ++ (if emailChanged then [NetOp.updateEmail] else [])
          ++ (if passwordChanged then [NetOp.updatePassword] else [])
          ++ [NetOp.updateDoc])

/-! ## Association-list lemmas shared by several theorems -/

/-- Looking up a key other than the removed one is unchanged. -/
theorem lookup_removeKey_ne {β : Type} (m : List (String × β)) {k q : String}
    (h : q ≠ k) : List.lookup q (removeKey m k) = List.lookup q m := by
  induction m with
  | nil => rfl
  | cons p m ih =>
    obtain ⟨a, b⟩ := p
    simp only [removeKey, ne_eq, decide_not, List.filter_cons] at ih ⊢
    by_cases hp : a = k
    · subst hp
      have hq : (q == a) = false := by simp [h]
      simp [List.lookup_cons, hq, ih]
    · have hc : (!decide (a = k)) = true := by simp [hp]
      rw [hc, if_pos rfl, List.lookup_cons, List.lookup_cons]
      cases hq : (q == a) <;> simp [ih]

/-- Looking up the key just written yields the written value. -/
theorem lookup_setKey_self {β : Type} (m : List (String × β)) (k : String)
    (v : β) : List.lookup k (setKey m k v) = some v := by
  induction m with
  | nil => simp [setKey, removeKey]
  | cons p m ih =>
    obtain ⟨a, b⟩ := p
    simp only [setKey, removeKey, ne_eq, decide_not, List.filter_cons] at ih ⊢
    by_cases hp : a = k
    · subst hp
      simpa using ih
    · have hq : (k == a) = false := by simp [Ne.symm hp]
      have hc : (!decide (a = k)) = true := by simp [hp]
      rw [hc, if_pos rfl, List.cons_append, List.lookup_cons]
      simp [hq, ih]

/-- Writing one key leaves every other key unchanged. -/
theorem lookup_setKey_ne {β : Type} (m : List (String × β)) {k q : String}
    (h : q ≠ k) (v : β) : List.lookup q (setKey m k v) = List.lookup q m := by
  have h2 : (q == k) = false := by simp [h]
  induction m with
  | nil => simp [setKey, removeKey, List.lookup_cons, h2]
  | cons p m ih =>
    obtain ⟨a, b⟩ := p
    simp only [setKey, removeKey, ne_eq, decide_not, List.filter_cons] at ih ⊢
    by_cases hp : a = k
    · subst hp
      have hq : (q == a) = false := by simp [h]
      simp [List.lookup_cons, hq, ih]
    · have hc : (!decide (a = k)) = true := by simp [hp]
      rw [hc, if_pos rfl, List.cons_append, List.lookup_cons, List.lookup_cons]
      cases hq : (q == a) <;> simp [ih]

/-- A non-empty string has positive length. -/
theorem length_pos_of_ne_empty {s : String} (h : s ≠ "") : 0 < s.length := by
  cases s with
  | mk data =>
    cases data with
    | nil => exact absurd rfl h
    | cons c cs => simp [String.length]

/-! ## Claim theorems -/

/-- Claim C1: when the per-user view-state record is missing or lacks the
key for a collection (modelled as `lastViewedTimestamp = none`),
`getNewItemsCount` returns 0 — and in particular not the total number of
items of a non-empty collection. -/
theorem getNewItemsCount_no_timestamp_zero
    (fetch : Except JsError (List Item)) (items : List Item)
    (hne : items ≠ []) :
    getNewItemsCount none fetch = 0 ∧
    getNewItemsCount none (.ok items) ≠ items.length := by
  refine ⟨rfl, ?_⟩
  intro hlen
  exact hne (List.length_eq_zero.mp hlen.symm)

/-- Witness for C1 at a one-item collection. -/
theorem getNewItemsCount_no_timestamp_zero_witness :
    getNewItemsCount none (Except.ok [⟨"a", 5⟩]) = 0 ∧
    getNewItemsCount none (Except.ok [(⟨"a", 5⟩ : Item)])
      ≠ [(⟨"a", 5⟩ : Item)].length :=
  getNewItemsCount_no_timestamp_zero (Except.ok [⟨"a", 5⟩]) [⟨"a", 5⟩]
    (by decide)

/-- Claim C2: with a present last-viewed timestamp `t`, the count equals
the number of items whose `createdAt` is strictly greater than `t` (the
result is a `Nat`, hence a non-negative integer), and an item whose
`createdAt` equals `t` exactly does not contribute to the count. -/
theorem getNewItemsCount_counts_strictly_newer
    (t : Nat) (items : List Item) (it : Item) (heq : it.createdAt = t) :
    getNewItemsCount (some t) (.ok items)
        = items.countP (fun x => decide (t < x.createdAt)) ∧
    getNewItemsCount (some t) (.ok (it :: items))
        = getNewItemsCount (some t) (.ok items) := by
  constructor
  · simp [getNewItemsCount, queryWhereGt, List.countP_eq_length_filter]
  · simp [getNewItemsCount, queryWhereGt, List.filter_cons, heq]

/-- Witness for C2 on a three-item collection with timestamp 5. -/
theorem getNewItemsCount_counts_strictly_newer_witness :
    getNewItemsCount (some 5) (Except.ok [⟨"b", 7⟩, ⟨"c", 5⟩, ⟨"d", 3⟩])
        = List.countP (fun x => decide (5 < x.createdAt))
            [(⟨"b", 7⟩ : Item), ⟨"c", 5⟩, ⟨"d", 3⟩] ∧
    getNewItemsCount (some 5)
        (Except.ok (⟨"e", 5⟩ :: [(⟨"b", 7⟩ : Item), ⟨"c", 5⟩, ⟨"d", 3⟩]))
      = getNewItemsCount (some 5) (Except.ok [⟨"b", 7⟩, ⟨"c", 5⟩, ⟨"d", 3⟩]) :=
  getNewItemsCount_counts_strictly_newer 5 [⟨"b", 7⟩, ⟨"c", 5⟩, ⟨"d", 3⟩]
    ⟨"e", 5⟩ rfl

/-- Claim C3: `markPageAsViewed` writes the server time into the entry of
the named collection, leaves the last-viewed timestamp of every other
collection in the view-state record of that user unchanged (merge
semantics), and the record exists afterwards even when it was missing
before (a missing record reads as the empty map). -/
theorem markPageAsViewed_merge
    (dbv : ViewDb) (userId pageName : String) (now : Nat)
    (k : String) (hk : k ≠ pageName) :
    (∃ r, List.lookup userId
        (markPageAsViewed dbv userId pageName now).userPageViews = some r) ∧
    List.lookup pageName
        ((List.lookup userId
          (markPageAsViewed dbv userId pageName now).userPageViews).getD [])
      = some now ∧
    List.lookup k
        ((List.lookup userId
          (markPageAsViewed dbv userId pageName now).userPageViews).getD [])
      = List.lookup k ((List.lookup userId dbv.userPageViews).getD []) := by
  unfold markPageAsViewed
  rw [lookup_setKey_self]
  exact ⟨⟨_, rfl⟩, lookup_setKey_self _ _ _, lookup_setKey_ne _ hk _⟩

/-- Witness for C3: marking `products` viewed at time 99 keeps the
`inbound` timestamp. -/
theorem markPageAsViewed_merge_witness :
    List.lookup "products"
        ((List.lookup "u1"
          (markPageAsViewed ⟨[("u1", [("products", 3), ("inbound", 7)])]⟩
            "u1" "products" 99).userPageViews).getD [])
      = some 99 ∧
    List.lookup "inbound"
        ((List.lookup "u1"
          (markPageAsViewed ⟨[("u1", [("products", 3), ("inbound", 7)])]⟩
            "u1" "products" 99).userPageViews).getD [])
      = List.lookup "inbound"
          ((List.lookup "u1"
            (⟨[("u1", [("products", 3), ("inbound", 7)])]⟩
              : ViewDb).userPageViews).getD []) :=
  (markPageAsViewed_merge ⟨[("u1", [("products", 3), ("inbound", 7)])]⟩
    "u1" "products" 99 "inbound" (by decide)).2

/-- Claim C4, counterexample to the claim as stated: a form whose entered
new password (empty) differs from the entered confirmation password
(`"x"`), yet `saveProfile` does not reject — it proceeds to the
profile-document network write, because the mismatch check is guarded by
`passwordChanged`, which is false for an empty new-password field. -/
theorem saveProfile_mismatch_counterexample :
    (⟨"Admin", "a@b.c", "", "", "x"⟩ : ProfileForm).newPassword
        ≠ (⟨"Admin", "a@b.c", "", "", "x"⟩ : ProfileForm).confirmPassword ∧
    saveProfile ⟨"Admin", "a@b.c", "", "", "x"⟩ "a@b.c"
        = .proceed [NetOp.updateDoc] := by
  constructor
  · decide
  · rfl

/-- Claim C4, amended: for every profile-save input whose entered new
password is non-empty and differs from the entered confirmation password,
`saveProfile` rejects the save with a validation error before issuing any
network call. -/
theorem saveProfile_nonempty_mismatch_rejected
    (form : ProfileForm) (storedEmail : String)
    (hne : form.newPassword ≠ "")
    (hmm : form.newPassword ≠ form.confirmPassword) :
    (saveProfile form storedEmail).isValidationError = true := by
  have hpc : decide (form.newPassword.length > 0) = true := by
    simpa using length_pos_of_ne_empty hne
  unfold saveProfile
  dsimp only
  split_ifs with h1 h2 h3 h4 h5 <;>
    first
    | rfl
    | exact absurd (by simp [hpc, hmm]) h4

/-- Witness for the amended C4 at a concrete mismatching form. -/
theorem saveProfile_nonempty_mismatch_rejected_witness :
    (saveProfile ⟨"Admin", "a@b.c", "pw", "secret1", "secret2"⟩
        "a@b.c").isValidationError = true :=
  saveProfile_nonempty_mismatch_rejected
    ⟨"Admin", "a@b.c", "pw", "secret1", "secret2"⟩ "a@b.c"
    (by decide) (by decide)

/-- Claim C5: when the entered (trimmed) email equals the stored email
and the new-password field is empty, no re-authentication happens: any
save that proceeds performs exactly the profile-document update, and a
save with a valid display name does proceed directly to that update. -/
theorem saveProfile_no_reauth_when_unchanged
    (form : ProfileForm) (storedEmail : String)
    (hem : jsTrim form.email = storedEmail)
    (hnp : form.newPassword = "") :
    (∀ ops, saveProfile form storedEmail = .proceed ops →
        ops = [NetOp.updateDoc]) ∧
    (jsTrim form.displayName ≠ "" → storedEmail ≠ "" →
      saveProfile form storedEmail = .proceed [NetOp.updateDoc]) := by
  unfold saveProfile
  rw [hem]
  constructor
  · intro ops hp
    by_cases h1 : jsTrim form.displayName = ""
    · simp [h1] at hp
    · by_cases h2 : storedEmail = ""
      · simp [h1, h2] at hp
      · simp [h1, h2, hnp] at hp
        exact hp.symm
  · intro hdn hse
    simp [hdn, hse, hnp]

/-- Witness for C5: an unchanged form issues only the document update. -/
theorem saveProfile_no_reauth_when_unchanged_witness :
    saveProfile ⟨"Admin", "a@b.c", "", "", ""⟩ "a@b.c"
      = SaveOutcome.proceed [NetOp.updateDoc] :=
  (saveProfile_no_reauth_when_unchanged ⟨"Admin", "a@b.c", "", "", ""⟩
    "a@b.c" (by decide) (by decide)).2 (by decide) (by decide)

/-- Claim C6: the session gate `requireAuth` resolves with a profile
record exactly when the identity provider reports a signed-in user and
the profile lookup returns that document; in every other case (no
session, lookup throws, profile missing) the result is a redirect to the
given url. -/
theorem requireAuth_resolved_iff
    (currentUser : Option String)
    (fetchProfile : String → Except JsError (Option UserDoc))
    (url : String) :
    (∀ uid d, requireAuth currentUser fetchProfile url = .resolved uid d ↔
        currentUser = some uid ∧ fetchProfile uid = .ok (some d)) ∧
    (requireAuth currentUser fetchProfile url = .redirect url ∨
      ∃ uid d, requireAuth currentUser fetchProfile url = .resolved uid d) := by
  constructor
  · intro uid d
    cases hcu : currentUser with
    | none =>
      simp [requireAuth, getCurrentUserData]
    | some u0 =>
      cases hf : fetchProfile u0 with
      | error e =>
        simp only [requireAuth, getCurrentUserData, hf]
        constructor
        · intro h; exact absurd h (by simp)
        · rintro ⟨h1, h2⟩
          obtain rfl : u0 = uid := by injection h1
          rw [hf] at h2
          cases h2
      | ok od =>
        cases od with
        | none =>
          simp only [requireAuth, getCurrentUserData, hf]
          constructor
          · intro h; exact absurd h (by simp)
          · rintro ⟨h1, h2⟩
            obtain rfl : u0 = uid := by injection h1
            rw [hf] at h2
            cases h2
        | some d0 =>
          simp only [requireAuth, getCurrentUserData, hf]
          constructor
          · intro h
            obtain ⟨rfl, rfl⟩ : u0 = uid ∧ d0 = d := by
              cases h; exact ⟨rfl, rfl⟩
            exact ⟨rfl, hf⟩
          · rintro ⟨h1, h2⟩
            obtain rfl : u0 = uid := by injection h1
            rw [hf] at h2
            obtain rfl : d0 = d := by injection h2 with h3; injection h3
            rfl
  · cases hcu : currentUser with
    | none => exact .inl rfl
    | some u0 =>
      cases hf : fetchProfile u0 with
      | error e => exact .inl (by simp [requireAuth, getCurrentUserData, hf])
      | ok od =>
        cases od with
        | none => exact .inl (by simp [requireAuth, getCurrentUserData, hf])
        | some d0 =>
          exact .inr ⟨u0, d0, by simp [requireAuth, getCurrentUserData, hf]⟩

/-- Witness for C6: a signed-in session with an existing profile
resolves. -/
theorem requireAuth_resolved_iff_witness :
    requireAuth (some "u1")
        (fun _ => Except.ok (some ⟨"boss", "b@x.c", "admin", "Boss",
          "system", 0⟩))
        "../pages/login.html"
      = GateResult.resolved "u1"
          ⟨"boss", "b@x.c", "admin", "Boss", "system", 0⟩ :=
  ((requireAuth_resolved_iff (some "u1")
      (fun _ => Except.ok (some ⟨"boss", "b@x.c", "admin", "Boss",
        "system", 0⟩))
      "../pages/login.html").1 "u1"
    ⟨"boss", "b@x.c", "admin", "Boss", "system", 0⟩).mpr ⟨rfl, rfl⟩

/-- Claim C7: a thrown per-collection count query yields a 0 count
instead of an error; a thrown view-state fetch is caught inside
`loadNotificationCounts` (no badge update); and the outcome of
`initPageAuth` is exactly the outcome of `requireAuth`, whatever the
notification fetches do — a failed count sub-operation never fails the
page load. -/
theorem notification_failures_degrade_to_zero
    (t : Nat) (e : JsError)
    (userViewsFetch : Except JsError (Option PageViews))
    (fp fi fo : Except JsError (List Item))
    (currentUser : Option String)
    (fetchProfile : String → Except JsError (Option UserDoc))
    (url : String) :
    getNewItemsCount (some t) (.error e) = 0 ∧
    loadNotificationCounts (.error e) fp fi fo = none ∧
    initPageAuth currentUser fetchProfile url userViewsFetch fp fi fo
        = requireAuth currentUser fetchProfile url := by
  refine ⟨rfl, rfl, ?_⟩
  unfold initPageAuth
  cases requireAuth currentUser fetchProfile url <;> rfl

/-- Claim C8: `deleteUserData` never touches the credential records of
the identity provider or the session, and the only profile document it
can remove is the one with the given uid: every other key reads the
same before and after, whatever the admin check returns. -/
theorem deleteUserData_frame
    (w : World) (fetchProfile : String → Except JsError (Option UserDoc))
    (uid k : String) (hk : k ≠ uid) :
    (deleteUserData w fetchProfile uid).1.credentials = w.credentials ∧
    (deleteUserData w fetchProfile uid).1.currentUser = w.currentUser ∧
    List.lookup k (deleteUserData w fetchProfile uid).1.profiles
      = List.lookup k w.profiles := by
  unfold deleteUserData
  cases getCurrentUserData w.currentUser fetchProfile with
  | none => exact ⟨rfl, rfl, rfl⟩
  | some p =>
    obtain ⟨adminUid, adminData⟩ := p
    by_cases h1 : adminData.role ≠ "admin"
    · simp [h1]
    · by_cases h2 : uid = adminUid <;>
        simp [h1, h2, lookup_removeKey_ne _ hk]

/-- Witness for C8: an admin deleting another user keeps the credentials
and the admin profile intact. -/
theorem deleteUserData_frame_witness :
    (deleteUserData
        ⟨[("u1", ⟨"boss", "b@x.c", "admin", "Boss", "system", 0⟩),
          ("u2", ⟨"bob", "bob@x.c", "staff", "Bob", "u1", 1⟩)],
         [("u1", "b@x.c"), ("u2", "bob@x.c")], some "u1"⟩
        (fun uid => Except.ok (List.lookup uid
          [("u1", (⟨"boss", "b@x.c", "admin", "Boss", "system", 0⟩
              : UserDoc)),
           ("u2", ⟨"bob", "bob@x.c", "staff", "Bob", "u1", 1⟩)]))
        "u2").1.credentials
      = [("u1", "b@x.c"), ("u2", "bob@x.c")] ∧
    (deleteUserData
        ⟨[("u1", ⟨"boss", "b@x.c", "admin", "Boss", "system", 0⟩),
          ("u2", ⟨"bob", "bob@x.c", "staff", "Bob", "u1", 1⟩)],
         [("u1", "b@x.c"), ("u2", "bob@x.c")], some "u1"⟩
        (fun uid => Except.ok (List.lookup uid
          [("u1", (⟨"boss", "b@x.c", "admin", "Boss", "system", 0⟩
              : UserDoc)),
           ("u2", ⟨"bob", "bob@x.c", "staff", "Bob", "u1", 1⟩)]))
        "u2").1.currentUser
      = some "u1" ∧
    List.lookup "u1"
        (deleteUserData
          ⟨[("u1", ⟨"boss", "b@x.c", "admin", "Boss", "system", 0⟩),
            ("u2", ⟨"bob", "bob@x.c", "staff", "Bob", "u1", 1⟩)],
           [("u1", "b@x.c"), ("u2", "bob@x.c")], some "u1"⟩
          (fun uid => Except.ok (List.lookup uid
            [("u1", (⟨"boss", "b@x.c", "admin", "Boss", "system", 0⟩
                : UserDoc)),
             ("u2", ⟨"bob", "bob@x.c", "staff", "Bob", "u1", 1⟩)]))
          "u2").1.profiles
      = List.lookup "u1"
          [("u1", (⟨"boss", "b@x.c", "admin", "Boss", "system", 0⟩
              : UserDoc)),
           ("u2", ⟨"bob", "bob@x.c", "staff", "Bob", "u1", 1⟩)] :=
  deleteUserData_frame _ _ "u2" "u1" (by decide)

/-- Claim C9: `loginWithUsername` is total — every run returns either a
success record or a failure record carrying one of exactly two user-facing
messages; a thrown lookup error, an unknown username, and a thrown
sign-in error each produce the failure message dictated by the error
code, the rate-limit code getting its dedicated message and every other
failure the generic one. -/
theorem loginWithUsername_total_messages
    (username password : String)
    (lk : String → Except JsError (List (String × UserDoc)))
    (si : String → String → Except JsError String) :
    ((∃ u, loginWithUsername username password lk si = .success u) ∨
      loginWithUsername username password lk si
        = .failure "Too many failed attempts. Please try again later." ∨
      loginWithUsername username password lk si
        = .failure "Invalid username or password") ∧
    (∀ e, lk (jsToLower username) = .error e →
      loginWithUsername username password lk si
        = .failure (if e.code = some "auth/too-many-requests" then
            "Too many failed attempts. Please try again later."
          else "Invalid username or password")) ∧
    (lk (jsToLower username) = .ok [] →
      loginWithUsername username password lk si
        = .failure "Invalid username or password") ∧
    (∀ uid d rest e, lk (jsToLower username) = .ok ((uid, d) :: rest) →
      si d.email password = .error e →
      loginWithUsername username password lk si
        = .failure (if e.code = some "auth/too-many-requests" then
            "Too many failed attempts. Please try again later."
          else "Invalid username or password")) := by
  refine ⟨?_, ?_, ?_, ?_⟩
  · unfold loginWithUsername
    cases loginAttempt username password lk si with
    | ok u => exact .inl ⟨u, rfl⟩
    | error e =>
      by_cases hc : e.code = some "auth/too-many-requests"
      · exact .inr (.inl (by simp [hc]))
      · exact .inr (.inr (by simp [hc]))
  · intro e he
    simp [loginWithUsername, loginAttempt, he, Except.instMonad, Except.bind]
  · intro he
    simp [loginWithUsername, loginAttempt, he, Except.instMonad, Except.bind]
  · intro uid d rest e hlk hsi
    simp [loginWithUsername, loginAttempt, hlk, hsi, Except.instMonad,
      Except.bind]

/-- Witness for C9: a rate-limited lookup produces the dedicated
message. -/
theorem loginWithUsername_total_messages_witness :
    loginWithUsername "Bob" "pw"
        (fun _ => Except.error ⟨some "auth/too-many-requests", "rate"⟩)
        (fun _ _ => Except.ok "u1")
      = LoginResult.failure
          "Too many failed attempts. Please try again later." := by
  have h := (loginWithUsername_total_messages "Bob" "pw"
      (fun _ => Except.error ⟨some "auth/too-many-requests", "rate"⟩)
      (fun _ _ => Except.ok "u1")).2.1
    ⟨some "auth/too-many-requests", "rate"⟩ rfl
  simpa using h

/-- A successful `createUserAttempt` returns a user object carrying the
lowercased username, and stores a profile document carrying the
lowercased username under the new uid. -/
theorem createUserAttempt_ok_stores_lowercase
    (username email password role displayName : String) (w : World)
    (fetchProfile : String → Except JsError (Option UserDoc))
    (signUp : String → String → Except JsError String)
    (now : Nat) (w2 : World) (usr : SessionUser)
    (h : createUserAttempt username email password role displayName w
        fetchProfile signUp now = .ok (w2, usr)) :
    usr.username = jsToLower username ∧
    ∃ d, List.lookup usr.uid w2.profiles = some d ∧
      d.username = jsToLower username := by
  unfold createUserAttempt at h
  split at h
  · simp at h
  · split at h
    · simp at h
    · split at h
      · simp at h
      · split at h
        · split at h
          · simp at h
          · split at h
            · simp at h
            · injection h with h2
              obtain ⟨h3, h4⟩ := Prod.mk.inj h2
              subst h3
              subst h4
              exact ⟨rfl, _, lookup_setKey_self _ _ _, rfl⟩
        · simp at h

/-- When the profile store is empty and the credential creation succeeds,
`initFirstAdmin` stores a profile document carrying the lowercased
username under the new uid. -/
theorem initFirstAdmin_stores_lowercase
    (username email password displayName : String) (w : World)
    (signUp : String → String → Except JsError String)
    (now : Nat) (newUid : String)
    (hemp : w.profiles = [])
    (hsu : signUp email password = .ok newUid) :
    ∃ d, List.lookup newUid
        (initFirstAdmin username email password displayName w signUp
          now).1.profiles
      = some d ∧ d.username = jsToLower username := by
  unfold initFirstAdmin
  rw [hemp, hsu]
  simp only [List.isEmpty_nil, Bool.not_true, Bool.false_eq_true, if_false]
  exact ⟨_, lookup_setKey_self _ _ _, rfl⟩

/-- Claim C10: username handling is lowercase throughout the public
interface — `loginWithUsername` and `isUsernameTaken` give the same
answer for any two usernames with the same lowercasing (they query with
the lowercased input), and every username stored by a successful
`createUser` or first-admin bootstrap is the lowercased input, both in
the returned user object and in the stored profile document. -/
theorem username_lowercase_invariant
    (u v pw : String)
    (lk : String → Except JsError (List (String × UserDoc)))
    (si : String → String → Except JsError String)
    (profiles : List (String × UserDoc))
    (email password role displayName : String) (w : World)
    (fetchProfile : String → Except JsError (Option UserDoc))
    (signUp : String → String → Except JsError String) (now : Nat)
    (w2 : World) (usr : SessionUser)
    (wa : World) (newUid : String)
    (huv : jsToLower u = jsToLower v) :
    loginWithUsername u pw lk si = loginWithUsername v pw lk si ∧
    isUsernameTaken u profiles = isUsernameTaken v profiles ∧
    (createUser u email password role displayName w fetchProfile signUp now
        = (w2, .success usr) →
      usr.username = jsToLower u ∧
      ∃ d, List.lookup usr.uid w2.profiles = some d ∧
        d.username = jsToLower u) ∧
    (wa.profiles = [] → signUp email password = .ok newUid →
      ∃ d, List.lookup newUid
          (initFirstAdmin u email password displayName wa signUp
            now).1.profiles
        = some d ∧ d.username = jsToLower u) := by
  refine ⟨?_, ?_, ?_, ?_⟩
  · simp only [loginWithUsername, loginAttempt, huv]
  · rw [isUsernameTaken, isUsernameTaken, huv]
  · intro h
    unfold createUser at h
    cases hA : createUserAttempt u email password role displayName w
        fetchProfile signUp now with
    | error e =>
      rw [hA] at h
      exact absurd h (by simp)
    | ok p =>
      obtain ⟨wp, usrp⟩ := p
      rw [hA] at h
      obtain ⟨h1, h2⟩ := Prod.mk.inj h
      subst h1
      injection h2 with h3
      subst h3
      exact createUserAttempt_ok_stores_lowercase u email password role
        displayName w fetchProfile signUp now wp usrp hA
  · intro hemp hsu
    exact initFirstAdmin_stores_lowercase u email password displayName wa
      signUp now newUid hemp hsu

/-- Witness for C10: `Bob` and `BOB` agree on `isUsernameTaken` against a
store holding the lowercase `bob`. -/
theorem username_lowercase_invariant_witness :
    isUsernameTaken "Bob"
        [("u1", (⟨"bob", "bob@x.c", "staff", "Bob", "u1", 1⟩ : UserDoc))]
      = isUsernameTaken "BOB"
        [("u1", (⟨"bob", "bob@x.c", "staff", "Bob", "u1", 1⟩ : UserDoc))] :=
  (username_lowercase_invariant "Bob" "BOB" "pw"
    (fun _ => Except.ok []) (fun _ _ => Except.ok "u")
    [("u1", ⟨"bob", "bob@x.c", "staff", "Bob", "u1", 1⟩)]
    "e@x.c" "pw" "staff" "Bob" ⟨[], [], none⟩
    (fun _ => Except.ok none) (fun _ _ => Except.ok "u") 0
    ⟨[], [], none⟩ ⟨"u", "e", "b", "B", "staff"⟩
    ⟨[], [], none⟩ "u9" (by decide)).2.1
